import Mathlib

/-!
Shallow embedding of the `Github_Repo_Creation` repository
(`create_github_public_repo_httpx.py`, `create_github_public_repo_requests.py`,
`create_gitignore.py`).

The working directory is modelled as a listing of named entries (files with
their contents, or directories).  Interactive input is modelled as a list of
answer strings consumed in order; HTTP traffic and external `git`/`python`
subprocess invocations are modelled by oracles supplied in an environment,
and every observable action of a run is recorded in a trace of events.
-/

deriving instance DecidableEq for Except

namespace GithubRepoCreation

/-- Kind of a directory entry: a directory, or a regular file with its
contents. -/
inductive FKind
  | dir
  | file (content : String)
deriving DecidableEq, Repr

/-- One entry of the working directory listing. -/
structure Entry where
  name : String
  kind : FKind
deriving DecidableEq, Repr

/-- The state of the working directory: its listing (`os.listdir`). -/
abbrev Listing := List Entry

/-- Predicate `os.path.isdir` on a single entry. -/
def Entry.isDir (e : Entry) : Bool :=
  match e.kind with
  | .dir => true
  | .file _ => false

/-- Predicate `os.path.isfile` on a single entry. -/
def Entry.isFile (e : Entry) : Bool :=
  match e.kind with
  | .dir => false
  | .file _ => true

/-- Test `os.path.exists name` in the working directory. -/
def fsExists (fs : Listing) (n : String) : Bool :=
  fs.any (fun e => e.name == n)

/-- Test `os.path.isdir name` in the working directory. -/
def fsIsDir (fs : Listing) (n : String) : Bool :=
  fs.any (fun e => e.name == n && e.isDir)

/-- Look an entry up by name. -/
def fsFind (fs : Listing) (n : String) : Option Entry :=
  fs.find? (fun e => e.name == n)

/-- Model of `open(n, "w").write(c)`: truncate an existing entry of that name to a
file with content `c`, or create the file. -/
def fsWrite (fs : Listing) (n c : String) : Listing :=
  if fsExists fs n then
    fs.map (fun e => if e.name == n then ⟨n, .file c⟩ else e)
  else
    fs ++ [⟨n, .file c⟩]

/-- Python's `str.startswith(pre)`: compare the leading characters. -/
def pyStartsWith (s pre : String) : Bool := s.data.take pre.data.length == pre.data

/-- Observable actions of a run. -/
inductive Event
  | inputReq (prompt : String)
  | httpGet (user repo : String)
  | httpPost
  | rmDir (name : String)
  | rmFile (name : String)
  | writeFile (name : String)
  | proc (args : List String)
  | exited (code : Nat)
deriving DecidableEq, Repr

/-- Function `clean_git_artifacts` (identical in both workflow scripts): remove the
`.git` directory when present (`shutil.rmtree`), then remove every regular
file whose name starts with `.git` (`os.remove`).  Returns the new listing
and the removal events. -/
def clean_git_artifacts (fs : Listing) : Listing × List Event :=
  let step1 : Listing × List Event :=
    if fsIsDir fs ".git" then
      (fs.filter (fun e => !(e.name == ".git" && e.isDir)), [Event.rmDir ".git"])
    else
      (fs, [])
  let fs1 := step1.1
  let removed := fs1.filter (fun e => pyStartsWith e.name ".git" && e.isFile)
  (fs1.filter (fun e => !(pyStartsWith e.name ".git" && e.isFile)),
    step1.2 ++ removed.map (fun e => Event.rmFile e.name))

/-- A GitHub API HTTP response (only the status code is inspected). -/
structure Response where
  status_code : Nat
deriving DecidableEq, Repr

/-- Function `check_github_repo_exists` (both workflow scripts): GET
`https://api.github.com/repos/<username>/<repo_name>` and compare the
status code with 200. -/
def check_github_repo_exists (get : String → String → Response)
    (username repo_name : String) : Bool :=
  (get username repo_name).status_code == 200

/-- Outcome of the repository-creation POST: a response object, or a
transport-level exception raised before any response is assigned. -/
inductive PostOutcome
  | resp (r : Response)
  | transportError
deriving DecidableEq, Repr

/-- Model of `response.raise_for_status()`: raise on a 4xx/5xx status code. -/
def raise_for_status (r : Response) : Except String Unit :=
  if 400 ≤ r.status_code then Except.error "HTTPStatusError" else Except.ok ()

/-- Python name lookup for the local variable `response`: reading it when it
was never assigned raises `NameError`/`UnboundLocalError`. -/
def pyVarGet (v : Option Response) : Except String Response :=
  match v with
  | some r => Except.ok r
  | none => Except.error "NameError"

/-- Result of the repository-creation step. -/
inductive StepResult
  | success
  | exited (code : Nat)
  | uncaught (exn : String)
deriving DecidableEq, Repr

/-- The `except` handler of the repository-creation `try` block: it prints
the error, then evaluates `response.status_code` (to print a hint on 422)
and calls `exit(1)`.  If `response` was never assigned, that read itself
raises. -/
def create_repo_error_handler (response : Option Response) : StepResult :=
  match pyVarGet response with
  | .ok _ => .exited 1
  | .error e => .uncaught e

/-- The repository-creation `try` block (both workflow scripts):
`response = post(...)` then `response.raise_for_status()`, with the handler
above catching both the transport exception and the status exception. -/
def create_repo_request (post : PostOutcome) : StepResult :=
  match post with
  | .resp r =>
    match raise_for_status r with
    | .ok _ => .success
    | .error _ => create_repo_error_handler (some r)
  | .transportError => create_repo_error_handler none

/-- Model of `subprocess.run(args, check := ...)` with an oracle giving each
command's exit code: with `check` set, a nonzero exit raises
`CalledProcessError`; without it, the exit code is ignored. -/
def subprocess_run (exit_code : List String → Nat) (check : Bool)
    (args : List String) : Except String Nat :=
  if check && exit_code args != 0 then Except.error "CalledProcessError"
  else Except.ok (exit_code args)

/-- Result of a filesystem/subprocess step: whether it raised, the new
listing, and the events it performed. -/
structure StepRun where
  result : Except String Unit
  fs : Listing
  events : List Event
deriving DecidableEq, Repr

/-- The hardcoded `.gitignore` content of `create_gitignore.py`. -/
def gitignore_content : String := "# Python-related
*.py[cod]
__pycache__/
*.so

# Environment Variables
.env
.config

# Virtual environments
.venv/
env/
ENV/
venv/

# IDEs and editors
.vscode/
.idea/
*.swp
*.swo
*.iml

# Poetry files
poetry.lock

# Operating system files
.DS_Store
Thumbs.db

# Logs and databases
*.log
*.sqlite3
*.db

# Django-related
# Django migration files (keep migrations if needed for versioning)
*.pyc

# Local settings (such as secret keys and local configuration)
local_settings.py
settings_local.py

# Packages #
############
# it's better to unpack these files and commit the raw source
# git has its own built in compression methods
*.7z
*.dmg
*.gz
*.iso
*.jar
*.rar
*.tar
*.zip

# Database files
*.sqlite3
db.sqlite3

# Media and static files
/media/
/static/

# Django secret key file (optional, if used)
.secret_key

# Tests
.coverage
.tox/

# Git-related
*.orig
*.rej

# Qodo
*.qodo
"

/-- Function `create_gitignore` of the standalone `create_gitignore.py`: write the
hardcoded content to `.gitignore` unconditionally, then run
`git add .gitignore`, `git commit`, `git push` with `subprocess.run`
without `check=True` (exit codes ignored). -/
def create_gitignore_standalone (exit_code : List String → Nat)
    (fs : Listing) : StepRun :=
  let fs1 := fsWrite fs ".gitignore" gitignore_content
  match subprocess_run exit_code false ["git", "add", ".gitignore"] with
  | .error e =>
    ⟨Except.error e, fs1,
      [Event.writeFile ".gitignore", Event.proc ["git", "add", ".gitignore"]]⟩
  | .ok _ =>
    match subprocess_run exit_code false ["git", "commit", "-m", "Add .gitignore file"] with
    | .error e =>
      ⟨Except.error e, fs1,
        [Event.writeFile ".gitignore", Event.proc ["git", "add", ".gitignore"],
          Event.proc ["git", "commit", "-m", "Add .gitignore file"]]⟩
    | .ok _ =>
      match subprocess_run exit_code false ["git", "push"] with
      | .error e =>
        ⟨Except.error e, fs1,
          [Event.writeFile ".gitignore", Event.proc ["git", "add", ".gitignore"],
            Event.proc ["git", "commit", "-m", "Add .gitignore file"],
            Event.proc ["git", "push"]]⟩
      | .ok _ =>
        ⟨Except.ok (), fs1,
          [Event.writeFile ".gitignore", Event.proc ["git", "add", ".gitignore"],
            Event.proc ["git", "commit", "-m", "Add .gitignore file"],
            Event.proc ["git", "push"]]⟩

/-- Python's `str.lower()`: lowercase the string character by character. -/
def pyLower (s : String) : String := ⟨s.data.map Char.toLower⟩

/-- Prompt shown before overwriting an existing `.gitignore`. -/
def overwritePrompt : String :=
  ".gitignore already exists. Do you want to overwrite it? (y/n): "

/-- Result of a `create_gitignore` call: whether it raised, the new listing,
the unconsumed input stream, and the events performed. -/
structure GiRun where
  result : Except String Unit
  fs : Listing
  inputs : List String
  events : List Event
deriving DecidableEq, Repr

/-- Function `create_gitignore` of `create_github_public_repo_httpx.py`: if
`.gitignore` exists, ask for confirmation and return without writing unless
the lowercased answer is `y`; then require the template file
(`FileNotFoundError` otherwise) and copy its content to `.gitignore`.
Running out of interactive input raises (`EOFError`). -/
def create_gitignore_httpx (template : Option String) (fs : Listing)
    (inputs : List String) : GiRun :=
  if fsExists fs ".gitignore" then
    match inputs with
    | [] => ⟨Except.error "EOFError", fs, [], [Event.inputReq overwritePrompt]⟩
    | ans :: rest =>
      if pyLower ans != "y" then
        ⟨Except.ok (), fs, rest, [Event.inputReq overwritePrompt]⟩
      else
        match template with
        | none =>
          ⟨Except.error "FileNotFoundError", fs, rest,
            [Event.inputReq overwritePrompt]⟩
        | some c =>
          ⟨Except.ok (), fsWrite fs ".gitignore" c, rest,
            [Event.inputReq overwritePrompt, Event.writeFile ".gitignore"]⟩
  else
    match template with
    | none => ⟨Except.error "FileNotFoundError", fs, inputs, []⟩
    | some c =>
      ⟨Except.ok (), fsWrite fs ".gitignore" c, inputs,
        [Event.writeFile ".gitignore"]⟩

/-- Function `create_gitignore` of `create_github_public_repo_requests.py`: require
`create_gitignore.py` to be present (`FileNotFoundError` otherwise); if
`.gitignore` exists, ask for confirmation and return without writing unless
the lowercased answer is `y`; then run `python create_gitignore.py` as a
subprocess, which executes the standalone script. -/
def create_gitignore_requests (scriptPresent : Bool)
    (exit_code : List String → Nat) (fs : Listing)
    (inputs : List String) : GiRun :=
  if !scriptPresent then
    ⟨Except.error "FileNotFoundError", fs, inputs, []⟩
  else if fsExists fs ".gitignore" then
    match inputs with
    | [] => ⟨Except.error "EOFError", fs, [], [Event.inputReq overwritePrompt]⟩
    | ans :: rest =>
      if pyLower ans != "y" then
        ⟨Except.ok (), fs, rest, [Event.inputReq overwritePrompt]⟩
      else
        match create_gitignore_standalone exit_code fs with
        | ⟨Except.ok _, fs1, evs⟩ =>
          ⟨Except.ok (), fs1, rest,
            Event.inputReq overwritePrompt ::
              Event.proc ["python", "create_gitignore.py"] :: evs⟩
        | ⟨Except.error e, fs1, evs⟩ =>
          ⟨Except.error e, fs1, rest,
            Event.inputReq overwritePrompt ::
              Event.proc ["python", "create_gitignore.py"] :: evs⟩
  else
    match create_gitignore_standalone exit_code fs with
    | ⟨Except.ok _, fs1, evs⟩ =>
      ⟨Except.ok (), fs1, inputs,
        Event.proc ["python", "create_gitignore.py"] :: evs⟩
    | ⟨Except.error e, fs1, evs⟩ =>
      ⟨Except.error e, fs1, inputs,
        Event.proc ["python", "create_gitignore.py"] :: evs⟩

/-- Prompt for the GitHub username. -/
def usernamePrompt : String := "Enter your GitHub username: "

/-- Prompt for the repository name. -/
def namePrompt : String := "Enter the name of the new GitHub repository: "

/-- Prompt of the name-collision retry question. -/
def retryPrompt : String := "Do you want to try a different name? (y/n): "

/-- Prompt for the repository description. -/
def descPrompt : String := "Enter a description for the repository: "

/-- Build the lookup oracle's responses from a status-code oracle. -/
def respOf (getStatus : String → String → Nat) : String → String → Response :=
  fun u r => ⟨getStatus u r⟩

/-- Result of the name-collision loop: a free name together with the
unconsumed input, `exit(1)`, or exhaustion of the input stream. -/
inductive LoopRes
  | ok (name : String) (rest : List String)
  | exited1
  | eof
deriving DecidableEq, Repr

/-- The interactive name-collision loop (both workflow scripts): read a
name, check it on GitHub; if taken, ask whether to try a different name,
continuing only when the lowercased answer is `y` and calling `exit(1)`
otherwise; a free name leaves the loop. -/
def nameLoop (getStatus : String → String → Nat) (user : String) :
    List String → LoopRes × List Event
  | [] => (.eof, [])
  | name :: rest =>
    let evs := [Event.inputReq namePrompt, Event.httpGet user name]
    if check_github_repo_exists (respOf getStatus) user name then
      match rest with
      | [] => (.eof, evs ++ [Event.inputReq retryPrompt])
      | ans :: rest2 =>
        if pyLower ans == "y" then
          let r := nameLoop getStatus user rest2
          (r.1, evs ++ [Event.inputReq retryPrompt] ++ r.2)
        else
          (.exited1, evs ++ [Event.inputReq retryPrompt, Event.exited 1])
    else
      (.ok name rest, evs)

/-- Python truthiness of `os.getenv("GITHUB_TOKEN")` under `if not token`:
the variable is unset (`None`) or set to the empty string. -/
def pyFalsyStr : Option String → Bool
  | none => true
  | some s => s == ""

/-- The external environment of a workflow run: the credential variable,
the status-code oracle of the repository-lookup GET, the outcome of the
repository-creation POST, the `.gitignore_template` content (`none` when
the file is missing), whether `create_gitignore.py` is present, and the
exit codes of external commands. -/
structure Env where
  token : Option String
  getStatus : String → String → Nat
  post : PostOutcome
  template : Option String
  scriptPresent : Bool
  exit_code : List String → Nat

/-- Write `README.md` with `# <name>\n\n<description>` when absent; leave
an existing `README.md` unchanged (both workflow scripts). -/
def write_readme (repo_name repo_description : String) (fs : Listing) :
    Listing × List Event :=
  if fsExists fs "README.md" then (fs, [])
  else
    (fsWrite fs "README.md" ("# " ++ repo_name ++ "\n\n" ++ repo_description),
      [Event.writeFile "README.md"])

/-- Running `git init` leaves a `.git` directory in the working tree. -/
def gitInitFs (fs : Listing) : Listing :=
  if fsExists fs ".git" then fs else fs ++ [⟨".git", FKind.dir⟩]

/-- Function `setup_git_repository` of `create_github_public_repo_httpx.py`: write
`README.md` if absent, then `git init` and `git checkout -b main`, each
with `check=True`. -/
def setup_git_repository (exit_code : List String → Nat)
    (repo_name repo_description : String) (fs : Listing) : StepRun :=
  let r := write_readme repo_name repo_description fs
  match subprocess_run exit_code true ["git", "init"] with
  | .error e => ⟨Except.error e, r.1, r.2 ++ [Event.proc ["git", "init"]]⟩
  | .ok _ =>
    let fs2 := gitInitFs r.1
    match subprocess_run exit_code true ["git", "checkout", "-b", "main"] with
    | .error e =>
      ⟨Except.error e, fs2,
        r.2 ++ [Event.proc ["git", "init"], Event.proc ["git", "checkout", "-b", "main"]]⟩
    | .ok _ =>
      ⟨Except.ok (), fs2,
        r.2 ++ [Event.proc ["git", "init"], Event.proc ["git", "checkout", "-b", "main"]]⟩

/-- The SSH remote URL `git@github.com:<user>/<repo>.git`. -/
def remote_url (user repo : String) : String :=
  "git@github.com:" ++ user ++ "/" ++ repo ++ ".git"

/-- The final stage of both workflow scripts: `git add .`, `git commit`,
`git remote add origin`, `git push -u origin main`, each with `check=True`
and fatal on failure. -/
def publish_steps (exit_code : List String → Nat) (user repo : String) :
    Except String Unit × List Event :=
  match subprocess_run exit_code true ["git", "add", "."] with
  | .error e => (Except.error e, [Event.proc ["git", "add", "."]])
  | .ok _ =>
    match subprocess_run exit_code true ["git", "commit", "-m", "Initial commit"] with
    | .error e =>
      (Except.error e,
        [Event.proc ["git", "add", "."],
          Event.proc ["git", "commit", "-m", "Initial commit"]])
    | .ok _ =>
      match subprocess_run exit_code true
          ["git", "remote", "add", "origin", remote_url user repo] with
      | .error e =>
        (Except.error e,
          [Event.proc ["git", "add", "."],
            Event.proc ["git", "commit", "-m", "Initial commit"],
            Event.proc ["git", "remote", "add", "origin", remote_url user repo]])
      | .ok _ =>
        match subprocess_run exit_code true ["git", "push", "-u", "origin", "main"] with
        | .error e =>
          (Except.error e,
            [Event.proc ["git", "add", "."],
              Event.proc ["git", "commit", "-m", "Initial commit"],
              Event.proc ["git", "remote", "add", "origin", remote_url user repo],
              Event.proc ["git", "push", "-u", "origin", "main"]])
        | .ok _ =>
          (Except.ok (),
            [Event.proc ["git", "add", "."],
              Event.proc ["git", "commit", "-m", "Initial commit"],
              Event.proc ["git", "remote", "add", "origin", remote_url user repo],
              Event.proc ["git", "push", "-u", "origin", "main"]])

/-- Final outcome of a whole workflow run. -/
inductive Outcome
  | done
  | exited (code : Nat)
  | uncaught (exn : String)
  | eof
deriving DecidableEq, Repr

/-- A whole workflow run: outcome, final working-tree state, event trace. -/
structure Run where
  outcome : Outcome
  fs : Listing
  events : List Event
deriving DecidableEq, Repr

/-- Function `main` of `create_github_public_repo_httpx.py`: username prompt, token
check, name-collision loop, description prompt, `clean_git_artifacts`,
repository-creation POST, `create_gitignore`, `setup_git_repository`
(README, `git init`, branch), then add/commit/remote/push. -/
def httpx_main (env : Env) (fs0 : Listing) (inputs : List String) : Run :=
  match inputs with
  | [] => ⟨.eof, fs0, []⟩
  | username :: r1 =>
    let e0 := [Event.inputReq usernamePrompt]
    if pyFalsyStr env.token then
      ⟨.exited 1, fs0, e0 ++ [Event.exited 1]⟩
    else
      match nameLoop env.getStatus username r1 with
      | (LoopRes.eof, nevs) => ⟨.eof, fs0, e0 ++ nevs⟩
      | (LoopRes.exited1, nevs) => ⟨.exited 1, fs0, e0 ++ nevs⟩
      | (LoopRes.ok repo_name r2, nevs) =>
        match r2 with
        | [] => ⟨.eof, fs0, e0 ++ nevs ++ [Event.inputReq descPrompt]⟩
        | repo_description :: r3 =>
          let e1 := e0 ++ nevs ++ [Event.inputReq descPrompt]
          let c := clean_git_artifacts fs0
          let e2 := e1 ++ c.2 ++ [Event.httpPost]
          match create_repo_request env.post with
          | .uncaught exn => ⟨.uncaught exn, c.1, e2⟩
          | .exited k => ⟨.exited k, c.1, e2 ++ [Event.exited k]⟩
          | .success =>
            let g := create_gitignore_httpx env.template c.1 r3
            match g.result with
            | .error _ => ⟨.exited 1, g.fs, e2 ++ g.events ++ [Event.exited 1]⟩
            | .ok _ =>
              let s := setup_git_repository env.exit_code repo_name repo_description g.fs
              match s.result with
              | .error _ =>
                ⟨.exited 1, s.fs, e2 ++ g.events ++ s.events ++ [Event.exited 1]⟩
              | .ok _ =>
                let p := publish_steps env.exit_code username repo_name
                match p.1 with
                | .error _ =>
                  ⟨.exited 1, s.fs, e2 ++ g.events ++ s.events ++ p.2 ++ [Event.exited 1]⟩
                | .ok _ => ⟨.done, s.fs, e2 ++ g.events ++ s.events ++ p.2⟩

/-- The module-level workflow of `create_github_public_repo_requests.py`:
username prompt, token check, name-collision loop, description prompt,
`clean_git_artifacts`, repository-creation POST, `create_gitignore` (via
the standalone script), `git init`, README, `git checkout -b main`, then
add/commit/remote/push. -/
def requests_main (env : Env) (fs0 : Listing) (inputs : List String) : Run :=
  match inputs with
  | [] => ⟨.eof, fs0, []⟩
  | username :: r1 =>
    let e0 := [Event.inputReq usernamePrompt]
    if pyFalsyStr env.token then
      ⟨.exited 1, fs0, e0 ++ [Event.exited 1]⟩
    else
      match nameLoop env.getStatus username r1 with
      | (LoopRes.eof, nevs) => ⟨.eof, fs0, e0 ++ nevs⟩
      | (LoopRes.exited1, nevs) => ⟨.exited 1, fs0, e0 ++ nevs⟩
      | (LoopRes.ok repo_name r2, nevs) =>
        match r2 with
        | [] => ⟨.eof, fs0, e0 ++ nevs ++ [Event.inputReq descPrompt]⟩
        | repo_description :: r3 =>
          let e1 := e0 ++ nevs ++ [Event.inputReq descPrompt]
          let c := clean_git_artifacts fs0
          let e2 := e1 ++ c.2 ++ [Event.httpPost]
          match create_repo_request env.post with
          | .uncaught exn => ⟨.uncaught exn, c.1, e2⟩
          | .exited k => ⟨.exited k, c.1, e2 ++ [Event.exited k]⟩
          | .success =>
            let g := create_gitignore_requests env.scriptPresent env.exit_code c.1 r3
            match g.result with
            | .error _ => ⟨.exited 1, g.fs, e2 ++ g.events ++ [Event.exited 1]⟩
            | .ok _ =>
              match subprocess_run env.exit_code true ["git", "init"] with
              | .error _ =>
                ⟨.exited 1, g.fs,
                  e2 ++ g.events ++ [Event.proc ["git", "init"], Event.exited 1]⟩
              | .ok _ =>
                let fsI := gitInitFs g.fs
                let r := write_readme repo_name repo_description fsI
                match subprocess_run env.exit_code true ["git", "checkout", "-b", "main"] with
                | .error _ =>
                  ⟨.exited 1, r.1,
                    e2 ++ g.events ++ [Event.proc ["git", "init"]] ++ r.2 ++
                      [Event.proc ["git", "checkout", "-b", "main"], Event.exited 1]⟩
                | .ok _ =>
                  let p := publish_steps env.exit_code username repo_name
                  match p.1 with
                  | .error _ =>
                    ⟨.exited 1, r.1,
                      e2 ++ g.events ++ [Event.proc ["git", "init"]] ++ r.2 ++
                        [Event.proc ["git", "checkout", "-b", "main"]] ++ p.2 ++
                        [Event.exited 1]⟩
                  | .ok _ =>
                    ⟨.done, r.1,
                      e2 ++ g.events ++ [Event.proc ["git", "init"]] ++ r.2 ++
                        [Event.proc ["git", "checkout", "-b", "main"]] ++ p.2⟩

/-! ### Concrete environments and inputs used in witnesses and
counterexamples -/

/-- Exit-code oracle: every external command succeeds. -/
def zeroExit : List String → Nat := fun _ => 0

/-- Lookup oracle: every repository name is free (404). -/
def status404 : String → String → Nat := fun _ _ => 404

/-- Lookup oracle: exactly the name `taken` exists (200). -/
def takenStatus : String → String → Nat := fun _ n => if n == "taken" then 200 else 404

/-- Fully healthy environment: token set, all names free, POST succeeds
with 201, template present, standalone script present, commands succeed. -/
def envDemo : Env := ⟨some "t", status404, PostOutcome.resp ⟨201⟩, some "T", true, zeroExit⟩

/-- Healthy environment in which the name `taken` already exists. -/
def envTaken : Env := ⟨some "t", takenStatus, PostOutcome.resp ⟨201⟩, some "T", true, zeroExit⟩

/-- Environment with the credential variable unset. -/
def envNoToken : Env := ⟨none, status404, PostOutcome.resp ⟨201⟩, some "T", true, zeroExit⟩

/-- Working tree holding a stale `.git` directory. -/
def fsDemo : Listing := [⟨".git", FKind.dir⟩]

/-- Working tree holding a `.gitignore` file with content `old`. -/
def fsWithOldGitignore : Listing := [⟨".gitignore", FKind.file "old"⟩]

/-- Interactive answers of a plain successful run. -/
def demoInputs : List String := ["user", "demo", "a description"]

/-! ### Event classes used in trace-shape statements -/

/-- Events the name-collision loop can produce. -/
def loopEvent : Event → Bool
  | .inputReq _ => true
  | .httpGet _ _ => true
  | .exited _ => true
  | _ => false

/-- Removal events. -/
def rmEvent : Event → Bool
  | .rmDir _ => true
  | .rmFile _ => true
  | _ => false

/-- Events the httpx `create_gitignore` can produce on a non-raising run. -/
def giHttpxEvent (e : Event) : Bool :=
  e == Event.inputReq overwritePrompt || e == Event.writeFile ".gitignore"

/-- Events the requests `create_gitignore` can produce on a non-raising
run (including the standalone subscript's own git invocations). -/
def giRequestsEvent (e : Event) : Bool :=
  e == Event.inputReq overwritePrompt ||
    e == Event.proc ["python", "create_gitignore.py"] ||
    e == Event.writeFile ".gitignore" ||
    e == Event.proc ["git", "add", ".gitignore"] ||
    e == Event.proc ["git", "commit", "-m", "Add .gitignore file"] ||
    e == Event.proc ["git", "push"]

/-- The README-writing event. -/
def readmeEvent (e : Event) : Bool := e == Event.writeFile "README.md"

/-- The repository-creation POST event. -/
def isPostEv (e : Event) : Bool := e == Event.httpPost

/-- The removal event of the `.git` directory. -/
def isRmGitDirEv (e : Event) : Bool := e == Event.rmDir ".git"

/-- The `git init` invocation event. -/
def isGitInitEv (e : Event) : Bool := e == Event.proc ["git", "init"]

/-- The README write event, as a scanning predicate. -/
def isReadmeWriteEv (e : Event) : Bool := e == Event.writeFile "README.md"

/-! ### Helper lemmas -/

/-- Combined keep-predicate of both cleanup passes. -/
def cleanKeep (e : Entry) : Bool :=
  !(pyStartsWith e.name ".git" && e.isFile) && !(e.name == ".git" && e.isDir)

theorem clean_fst_eq_filter (fs : Listing) :
    (clean_git_artifacts fs).1 = fs.filter cleanKeep := by
  unfold clean_git_artifacts cleanKeep
  by_cases h : fsIsDir fs ".git" = true
  · simp only [h, if_true, List.filter_filter]
  · simp only [h, if_false, Bool.false_eq_true]
    have hall : ∀ e ∈ fs, (!(e.name == ".git" && e.isDir)) = true := by
      intro e he
      by_contra hc
      apply h
      simp only [fsIsDir, List.any_eq_true]
      refine ⟨e, he, ?_⟩
      revert hc
      cases hb : (e.name == ".git" && e.isDir) <;> simp
    calc fs.filter (fun e => !(pyStartsWith e.name ".git" && e.isFile))
        = (fs.filter (fun e => !(e.name == ".git" && e.isDir))).filter
            (fun e => !(pyStartsWith e.name ".git" && e.isFile)) := by
          rw [List.filter_eq_self.2 hall]
      _ = _ := List.filter_filter _ _

theorem standalone_run_eq (exit_code : List String → Nat) (fs : Listing) :
    create_gitignore_standalone exit_code fs =
      ⟨Except.ok (), fsWrite fs ".gitignore" gitignore_content,
        [Event.writeFile ".gitignore", Event.proc ["git", "add", ".gitignore"],
          Event.proc ["git", "commit", "-m", "Add .gitignore file"],
          Event.proc ["git", "push"]]⟩ := by
  simp [create_gitignore_standalone, subprocess_run]

/-! ### Claim theorems -/

/-- C2: the remote-existence check returns true exactly when the lookup
request's status code is 200; every other status code yields false. -/
theorem C2_check_remote_exists (get : String → String → Response)
    (username repo_name : String) :
    check_github_repo_exists get username repo_name = true ↔
      (get username repo_name).status_code = 200 := by
  simp [check_github_repo_exists]

/-- C5: the local-state cleanup is idempotent — running
`clean_git_artifacts` twice leaves the same directory state as once. -/
theorem C5_clean_idempotent (fs : Listing) :
    (clean_git_artifacts (clean_git_artifacts fs).1).1 =
      (clean_git_artifacts fs).1 := by
  rw [clean_fst_eq_filter, clean_fst_eq_filter, List.filter_filter]
  simp [Bool.and_self]

/-- C7: the README step writes `README.md` with content
`# <name>\n\n<description>` exactly when no `README.md` exists, and leaves
an existing `README.md` (and the whole tree) unchanged. -/
theorem C7_readme_step :
    (∀ (n d : String) (fs : Listing), fsExists fs "README.md" = true →
      write_readme n d fs = (fs, [])) ∧
    (∀ (n d : String) (fs : Listing), fsExists fs "README.md" = false →
      write_readme n d fs =
        (fs ++ [⟨"README.md", FKind.file ("# " ++ n ++ "\n\n" ++ d)⟩],
          [Event.writeFile "README.md"])) := by
  constructor
  · intro n d fs h
    simp [write_readme, h]
  · intro n d fs h
    simp [write_readme, fsWrite, h]

/-- Witness for C7 at concrete trees. -/
theorem C7_readme_step_witness :
    write_readme "demo" "a description" [⟨"README.md", FKind.file "x"⟩] =
      ([⟨"README.md", FKind.file "x"⟩], []) ∧
    write_readme "demo" "a description" [] =
      ([⟨"README.md", FKind.file "# demo\n\na description"⟩],
        [Event.writeFile "README.md"]) :=
  ⟨C7_readme_step.1 "demo" "a description" _ (by decide),
    C7_readme_step.2 "demo" "a description" [] (by decide)⟩

/-- C9: when the creation POST raises a transport-level exception before
`response` is assigned, the handler's read of `response.status_code`
raises an uncaught name error instead of exiting cleanly; when a response
object exists (an HTTP error status), the handler does exit with code 1. -/
theorem C9_unbound_response :
    create_repo_request PostOutcome.transportError =
      StepResult.uncaught "NameError" ∧
    (∀ r : Response, 400 ≤ r.status_code →
      create_repo_request (PostOutcome.resp r) = StepResult.exited 1) := by
  constructor
  · rfl
  · intro r h
    simp [create_repo_request, raise_for_status, create_repo_error_handler,
      pyVarGet, h]

/-- Witness for C9 at status 422. -/
theorem C9_unbound_response_witness :
    create_repo_request (PostOutcome.resp ⟨422⟩) = StepResult.exited 1 :=
  C9_unbound_response.2 ⟨422⟩ (by decide)

/-- C10: the standalone gitignore script runs `git add`, `git commit` and
`git push` without checking exit codes — for every assignment of exit
codes to external commands it returns normally, having performed the write
and the three git invocations. -/
theorem C10_standalone_ignores_git_failures (exit_code : List String → Nat)
    (fs : Listing) :
    create_gitignore_standalone exit_code fs =
      ⟨Except.ok (), fsWrite fs ".gitignore" gitignore_content,
        [Event.writeFile ".gitignore", Event.proc ["git", "add", ".gitignore"],
          Event.proc ["git", "commit", "-m", "Add .gitignore file"],
          Event.proc ["git", "push"]]⟩ :=
  standalone_run_eq exit_code fs

/-- Mixed working tree: stale `.git` directory, a `.gitignore` file, a
`.github` directory and an ordinary source file. -/
def fsMixed : Listing :=
  [⟨".git", FKind.dir⟩, ⟨".gitignore", FKind.file "old"⟩,
    ⟨".github", FKind.dir⟩, ⟨"main.py", FKind.file "pass"⟩]

/-- C1 counterexample: the standalone `create_gitignore.py` overwrites an
existing `.gitignore` with no confirmation prompt at all (its events hold
no input request), and the httpx variant overwrites on the answer `Y`,
which is not the answer `y`. -/
theorem C1_counterexample :
    (create_gitignore_standalone zeroExit fsWithOldGitignore).result = Except.ok () ∧
    (create_gitignore_standalone zeroExit fsWithOldGitignore).fs =
      [⟨".gitignore", FKind.file gitignore_content⟩] ∧
    (create_gitignore_standalone zeroExit fsWithOldGitignore).events =
      [Event.writeFile ".gitignore", Event.proc ["git", "add", ".gitignore"],
        Event.proc ["git", "commit", "-m", "Add .gitignore file"],
        Event.proc ["git", "push"]] ∧
    gitignore_content ≠ "old" ∧
    (create_gitignore_httpx (some "T") fsWithOldGitignore ["Y"]).fs =
      [⟨".gitignore", FKind.file "T"⟩] ∧
    "Y" ≠ "y" :=
  ⟨rfl, rfl, rfl, by decide, rfl, by decide⟩

/-- C1 (amended): in the two workflow scripts' `create_gitignore`, an
existing `.gitignore` is overwritten only after an answer whose lowercase
form is `y`; any other answer returns without writing and leaves the tree
unchanged.  The standalone `create_gitignore.py` instead overwrites
unconditionally. -/
theorem C1_gitignore_overwrite_guard :
    (∀ (template : Option String) (fs : Listing) (ans : String) (rest : List String),
      fsExists fs ".gitignore" = true → (pyLower ans == "y") = false →
      create_gitignore_httpx template fs (ans :: rest) =
        ⟨Except.ok (), fs, rest, [Event.inputReq overwritePrompt]⟩) ∧
    (∀ (exit_code : List String → Nat) (fs : Listing) (ans : String) (rest : List String),
      fsExists fs ".gitignore" = true → (pyLower ans == "y") = false →
      create_gitignore_requests true exit_code fs (ans :: rest) =
        ⟨Except.ok (), fs, rest, [Event.inputReq overwritePrompt]⟩) ∧
    (∀ (template : Option String) (fs : Listing) (inputs : List String),
      fsExists fs ".gitignore" = true →
      (create_gitignore_httpx template fs inputs).fs ≠ fs →
      ∃ ans rest, inputs = ans :: rest ∧ pyLower ans = "y") ∧
    (∀ (scriptPresent : Bool) (exit_code : List String → Nat) (fs : Listing)
        (inputs : List String),
      fsExists fs ".gitignore" = true →
      (create_gitignore_requests scriptPresent exit_code fs inputs).fs ≠ fs →
      ∃ ans rest, inputs = ans :: rest ∧ pyLower ans = "y") ∧
    (∀ (exit_code : List String → Nat) (fs : Listing),
      (create_gitignore_standalone exit_code fs).fs =
        fsWrite fs ".gitignore" gitignore_content) := by
  refine ⟨?_, ?_, ?_, ?_, ?_⟩
  · intro template fs ans rest h1 h2
    have hcond : (pyLower ans != "y") = true := by simp [bne, h2]
    simp [create_gitignore_httpx, h1, hcond]
  · intro exit_code fs ans rest h1 h2
    have hcond : (pyLower ans != "y") = true := by simp [bne, h2]
    simp [create_gitignore_requests, h1, hcond]
  · intro template fs inputs h1 h2
    match inputs with
    | [] => simp [create_gitignore_httpx, h1] at h2
    | ans :: rest =>
      by_cases hy : (pyLower ans == "y") = true
      · exact ⟨ans, rest, rfl, by simpa using hy⟩
      · exfalso
        apply h2
        have hcond : (pyLower ans != "y") = true := by
          simp [bne, Bool.eq_false_iff.2 hy]
        simp [create_gitignore_httpx, h1, hcond]
  · intro scriptPresent exit_code fs inputs h1 h2
    match scriptPresent with
    | false => simp [create_gitignore_requests] at h2
    | true =>
      match inputs with
      | [] => simp [create_gitignore_requests, h1] at h2
      | ans :: rest =>
        by_cases hy : (pyLower ans == "y") = true
        · exact ⟨ans, rest, rfl, by simpa using hy⟩
        · exfalso
          apply h2
          have hcond : (pyLower ans != "y") = true := by
            simp [bne, Bool.eq_false_iff.2 hy]
          simp [create_gitignore_requests, h1, hcond]
  · intro exit_code fs
    rw [standalone_run_eq]

/-- Witness for C1's amended guard: the answer `no` declines the overwrite
in both workflow variants. -/
theorem C1_gitignore_overwrite_guard_witness :
    create_gitignore_httpx (some "T") fsWithOldGitignore ["no"] =
      ⟨Except.ok (), fsWithOldGitignore, [], [Event.inputReq overwritePrompt]⟩ ∧
    create_gitignore_requests true zeroExit fsWithOldGitignore ["no"] =
      ⟨Except.ok (), fsWithOldGitignore, [], [Event.inputReq overwritePrompt]⟩ :=
  ⟨C1_gitignore_overwrite_guard.1 (some "T") fsWithOldGitignore "no" []
      (by decide) (by decide),
    C1_gitignore_overwrite_guard.2.1 zeroExit fsWithOldGitignore "no" []
      (by decide) (by decide)⟩

/-- C8: the cleanup removes every regular file whose name starts with
`.git` (including a pre-existing `.gitignore`) and the `.git` directory,
keeps every other directory and every file not starting with `.git`, and
consequently the gitignore step run right after the cleanup finds no
`.gitignore`, so it asks no overwrite question and consumes no input. -/
theorem C8_clean_scope :
    (∀ (fs : Listing) (e : Entry), e ∈ fs → pyStartsWith e.name ".git" = true →
      e.isFile = true → e ∉ (clean_git_artifacts fs).1) ∧
    (∀ fs : Listing, fsIsDir (clean_git_artifacts fs).1 ".git" = false) ∧
    (∀ (fs : Listing) (e : Entry), e ∈ fs → e.isDir = true → e.name ≠ ".git" →
      e ∈ (clean_git_artifacts fs).1) ∧
    (∀ (fs : Listing) (e : Entry), e ∈ fs → pyStartsWith e.name ".git" = false →
      e ∈ (clean_git_artifacts fs).1) ∧
    (∀ (template : Option String) (fs : Listing) (inputs : List String),
      (∀ e ∈ fs, e.name = ".gitignore" → e.isFile = true) →
      (create_gitignore_httpx template (clean_git_artifacts fs).1 inputs).inputs
          = inputs ∧
      Event.inputReq overwritePrompt ∉
        (create_gitignore_httpx template (clean_git_artifacts fs).1 inputs).events) := by
  have hkeep_false : ∀ e : Entry, pyStartsWith e.name ".git" = true →
      e.isFile = true → cleanKeep e = false := by
    intro e h1 h2
    simp [cleanKeep, h1, h2]
  have hgone : ∀ (fs : Listing) (e : Entry), pyStartsWith e.name ".git" = true →
      e.isFile = true → e ∉ (clean_git_artifacts fs).1 := by
    intro fs e h1 h2 hmem
    rw [clean_fst_eq_filter] at hmem
    have := (List.mem_filter.1 hmem).2
    rw [hkeep_false e h1 h2] at this
    exact Bool.false_ne_true this
  refine ⟨fun fs e _ h1 h2 => hgone fs e h1 h2, ?_, ?_, ?_, ?_⟩
  · intro fs
    rw [clean_fst_eq_filter]
    simp only [fsIsDir]
    rw [List.any_eq_false]
    intro e he
    have hk := (List.mem_filter.1 he).2
    by_contra hb
    have hb' : (e.name == ".git" && e.isDir) = true := by
      revert hb
      cases e.name == ".git" && e.isDir <;> simp
    simp [cleanKeep, hb'] at hk
  · intro fs e he h1 h2
    rw [clean_fst_eq_filter]
    refine List.mem_filter.2 ⟨he, ?_⟩
    have hfile : e.isFile = false := by
      revert h1
      unfold Entry.isDir Entry.isFile
      cases e.kind <;> simp
    have hname : (e.name == ".git") = false := by
      simpa using h2
    simp [cleanKeep, hfile, hname]
  · intro fs e he h1
    rw [clean_fst_eq_filter]
    refine List.mem_filter.2 ⟨he, ?_⟩
    have hname : (e.name == ".git") = false := by
      by_contra hb
      have : e.name = ".git" := by
        revert hb
        cases hq : e.name == ".git" <;> simp_all
      rw [this] at h1
      exact absurd h1 (by decide)
    simp [cleanKeep, h1, hname]
  · intro template fs inputs hfs
    have hex : fsExists (clean_git_artifacts fs).1 ".gitignore" = false := by
      simp only [fsExists]
      rw [List.any_eq_false]
      intro e he
      rw [clean_fst_eq_filter] at he
      obtain ⟨hmem, hk⟩ := List.mem_filter.1 he
      by_contra hb
      have hname : e.name = ".gitignore" := by
        revert hb
        cases hq : e.name == ".gitignore" <;> simp_all
      have hfile := hfs e hmem hname
      have hsw : pyStartsWith e.name ".git" = true := by
        rw [hname]; decide
      rw [hkeep_false e hsw hfile] at hk
      exact Bool.false_ne_true hk
    cases template <;> simp [create_gitignore_httpx, hex]

/-- Witness for C8 on a mixed tree and a healthy template. -/
theorem C8_clean_scope_witness :
    (⟨".gitignore", FKind.file "old"⟩ : Entry) ∉ (clean_git_artifacts fsMixed).1 ∧
    fsIsDir (clean_git_artifacts fsMixed).1 ".git" = false ∧
    (⟨".github", FKind.dir⟩ : Entry) ∈ (clean_git_artifacts fsMixed).1 ∧
    (⟨"main.py", FKind.file "pass"⟩ : Entry) ∈ (clean_git_artifacts fsMixed).1 ∧
    (create_gitignore_httpx (some "T") (clean_git_artifacts fsMixed).1 ["x"]).inputs
        = ["x"] ∧
    Event.inputReq overwritePrompt ∉
      (create_gitignore_httpx (some "T") (clean_git_artifacts fsMixed).1 ["x"]).events :=
  ⟨C8_clean_scope.1 fsMixed _ (by decide) (by decide) (by decide),
    C8_clean_scope.2.1 fsMixed,
    C8_clean_scope.2.2.1 fsMixed _ (by decide) (by decide) (by decide),
    C8_clean_scope.2.2.2.1 fsMixed _ (by decide) (by decide),
    (C8_clean_scope.2.2.2.2 (some "T") fsMixed ["x"] (by decide)).1,
    (C8_clean_scope.2.2.2.2 (some "T") fsMixed ["x"] (by decide)).2⟩

theorem nameLoop_cons_cons (g : String → String → Nat) (u name ans : String)
    (rest : List String) :
    (nameLoop g u (name :: ans :: rest)).1 =
      if check_github_repo_exists (respOf g) u name then
        (if (pyLower ans == "y") = true then (nameLoop g u rest).1
          else LoopRes.exited1)
      else LoopRes.ok name (ans :: rest) := by
  by_cases hex : check_github_repo_exists (respOf g) u name = true <;>
    by_cases hy : (pyLower ans == "y") = true <;>
      simp [nameLoop, hex, hy]

theorem nameLoop_ok_free_aux (g : String → String → Nat) (u : String) :
    ∀ (k : Nat) (inputs : List String), inputs.length ≤ k →
      ∀ (n : String) (r : List String),
        (nameLoop g u inputs).1 = LoopRes.ok n r →
        check_github_repo_exists (respOf g) u n = false := by
  intro k
  induction k with
  | zero =>
    intro inputs hlen n r h
    match inputs with
    | [] => simp [nameLoop] at h
    | name :: rest => simp at hlen
  | succ k ih =>
    intro inputs hlen n r h
    match inputs with
    | [] => simp [nameLoop] at h
    | name :: rest =>
      by_cases hex : check_github_repo_exists (respOf g) u name = true
      · match rest with
        | [] => simp [nameLoop, hex] at h
        | ans :: rest2 =>
          by_cases hy : (pyLower ans == "y") = true
          · have hrec : (nameLoop g u rest2).1 = LoopRes.ok n r := by
              simpa [nameLoop, hex, hy] using h
            exact ih rest2 (by simp at hlen ⊢; omega) n r hrec
          · simp [nameLoop, hex, hy] at h
      · have hex' : check_github_repo_exists (respOf g) u name = false := by
          simpa using hex
        rw [nameLoop.eq_def] at h
        have hnr : name = n ∧ rest = r := by
          simpa [hex'] using h
        rw [← hnr.1]
        exact hex'

theorem nameLoop_events_aux (g : String → String → Nat) (u : String) :
    ∀ (k : Nat) (inputs : List String), inputs.length ≤ k →
      (nameLoop g u inputs).2.all loopEvent = true := by
  intro k
  induction k with
  | zero =>
    intro inputs hlen
    match inputs with
    | [] => simp [nameLoop]
    | name :: rest => simp at hlen
  | succ k ih =>
    intro inputs hlen
    match inputs with
    | [] => simp [nameLoop]
    | name :: rest =>
      by_cases hex : check_github_repo_exists (respOf g) u name = true
      · match rest with
        | [] => simp [nameLoop, hex, loopEvent]
        | ans :: rest2 =>
          by_cases hy : (pyLower ans == "y") = true
          · have hrec := ih rest2 (by simp at hlen ⊢; omega)
            simp [nameLoop, hex, hy, loopEvent, List.all_append, hrec]
          · simp [nameLoop, hex, hy, loopEvent]
      · have hex' : check_github_repo_exists (respOf g) u name = false := by
          simpa using hex
        rw [nameLoop.eq_def]
        simp [hex', loopEvent]

/-- C6 counterexample: with the name `taken` existing remotely, answering
`Y` (which is not the answer `y`) at the retry question does not exit the
process with code 1 — the loop continues and the run completes. -/
theorem C6_counterexample :
    (nameLoop takenStatus "u" ["taken", "Y", "free"]).1 = LoopRes.ok "free" [] ∧
    (httpx_main envTaken [] ["u", "taken", "Y", "free", "d"]).outcome =
      Outcome.done ∧
    "Y" ≠ "y" :=
  ⟨rfl, rfl, by decide⟩

/-- C6 (amended): on a name reported as existing, the loop asks the retry
question and re-prompts exactly when the lowercased answer is `y`, exits
with code 1 on any other answer, and leaves the loop only with a name the
remote check reports as free. -/
theorem C6_retry_loop :
    (∀ (g : String → String → Nat) (u name ans : String) (rest : List String),
      (nameLoop g u (name :: ans :: rest)).1 =
        if check_github_repo_exists (respOf g) u name then
          (if (pyLower ans == "y") = true then (nameLoop g u rest).1
            else LoopRes.exited1)
        else LoopRes.ok name (ans :: rest)) ∧
    (∀ (g : String → String → Nat) (u : String) (inputs : List String)
        (n : String) (r : List String),
      (nameLoop g u inputs).1 = LoopRes.ok n r →
      check_github_repo_exists (respOf g) u n = false) ∧
    (∀ (env : Env) (fs0 : Listing) (username : String) (r1 : List String),
      pyFalsyStr env.token = false →
      (nameLoop env.getStatus username r1).1 = LoopRes.exited1 →
      (httpx_main env fs0 (username :: r1)).outcome = Outcome.exited 1 ∧
      (requests_main env fs0 (username :: r1)).outcome = Outcome.exited 1) := by
  refine ⟨nameLoop_cons_cons, ?_, ?_⟩
  · intro g u inputs n r h
    exact nameLoop_ok_free_aux g u inputs.length inputs le_rfl n r h
  · intro env fs0 username r1 htok hloop
    rcases hnl : nameLoop env.getStatus username r1 with ⟨res, nevs⟩
    rw [hnl] at hloop
    simp only at hloop
    subst hloop
    constructor <;> simp [httpx_main, requests_main, htok, hnl]

/-- Witness for C6's amended loop behaviour. -/
theorem C6_retry_loop_witness :
    check_github_repo_exists (respOf takenStatus) "u" "free" = false ∧
    (httpx_main envTaken [] ["u", "taken", "n"]).outcome = Outcome.exited 1 ∧
    (requests_main envTaken [] ["u", "taken", "n"]).outcome = Outcome.exited 1 :=
  ⟨C6_retry_loop.2.1 takenStatus "u" ["free"] "free" [] (by decide),
    (C6_retry_loop.2.2 envTaken [] "u" ["taken", "n"] (by decide) (by decide)).1,
    (C6_retry_loop.2.2 envTaken [] "u" ["taken", "n"] (by decide) (by decide)).2⟩

/-- C3: with the credential variable unset or empty, both scripts exit
with code 1 right after the username prompt and the credential check,
leaving the working tree untouched and performing no HTTP request, no
file write and no external command. -/
theorem C3_missing_token (env : Env) (fs0 : Listing) (username : String)
    (rest : List String) (h : pyFalsyStr env.token = true) :
    httpx_main env fs0 (username :: rest) =
      ⟨Outcome.exited 1, fs0, [Event.inputReq usernamePrompt, Event.exited 1]⟩ ∧
    requests_main env fs0 (username :: rest) =
      ⟨Outcome.exited 1, fs0, [Event.inputReq usernamePrompt, Event.exited 1]⟩ := by
  constructor <;> simp [httpx_main, requests_main, h]

/-- Witness for C3 with the token unset. -/
theorem C3_missing_token_witness :
    httpx_main envNoToken [] ["u"] =
      ⟨Outcome.exited 1, [], [Event.inputReq usernamePrompt, Event.exited 1]⟩ ∧
    requests_main envNoToken [] ["u"] =
      ⟨Outcome.exited 1, [], [Event.inputReq usernamePrompt, Event.exited 1]⟩ :=
  C3_missing_token envNoToken [] "u" [] (by decide)

theorem publish_ok_events (exit_code : List String → Nat) (user repo : String)
    (h : (publish_steps exit_code user repo).1 = Except.ok ()) :
    (publish_steps exit_code user repo).2 =
      [Event.proc ["git", "add", "."],
        Event.proc ["git", "commit", "-m", "Initial commit"],
        Event.proc ["git", "remote", "add", "origin", remote_url user repo],
        Event.proc ["git", "push", "-u", "origin", "main"]] := by
  by_cases b1 : (exit_code ["git", "add", "."] != 0) = true <;>
    by_cases b2 : (exit_code ["git", "commit", "-m", "Initial commit"] != 0) = true <;>
      by_cases b3 : (exit_code ["git", "remote", "add", "origin",
        remote_url user repo] != 0) = true <;>
        by_cases b4 : (exit_code ["git", "push", "-u", "origin", "main"] != 0) = true <;>
          simp_all [publish_steps, subprocess_run]

theorem setup_ok_events (exit_code : List String → Nat)
    (repo_name repo_description : String) (fs : Listing)
    (h : (setup_git_repository exit_code repo_name repo_description fs).result =
      Except.ok ()) :
    (setup_git_repository exit_code repo_name repo_description fs).events =
      (write_readme repo_name repo_description fs).2 ++
        [Event.proc ["git", "init"], Event.proc ["git", "checkout", "-b", "main"]] := by
  by_cases b1 : (exit_code ["git", "init"] != 0) = true <;>
    by_cases b2 : (exit_code ["git", "checkout", "-b", "main"] != 0) = true <;>
      simp_all [setup_git_repository, subprocess_run]

theorem write_readme_events (repo_name repo_description : String) (fs : Listing) :
    (write_readme repo_name repo_description fs).2.all readmeEvent = true := by
  by_cases h : fsExists fs "README.md" = true <;>
    simp [write_readme, readmeEvent, h]

theorem gi_httpx_ok_events (template : Option String) (fs : Listing)
    (inputs : List String)
    (h : (create_gitignore_httpx template fs inputs).result = Except.ok ()) :
    (create_gitignore_httpx template fs inputs).events.all giHttpxEvent = true := by
  by_cases he : fsExists fs ".gitignore" = true
  · match inputs with
    | [] => simp [create_gitignore_httpx, he] at h
    | ans :: rest =>
      by_cases hy : (pyLower ans != "y") = true
      · simp [create_gitignore_httpx, he, hy, giHttpxEvent]
      · match template with
        | none => simp [create_gitignore_httpx, he, hy] at h
        | some c => simp [create_gitignore_httpx, he, hy, giHttpxEvent]
  · match template with
    | none => simp [create_gitignore_httpx, he] at h
    | some c => simp [create_gitignore_httpx, he, giHttpxEvent]

theorem gi_requests_ok_events (scriptPresent : Bool)
    (exit_code : List String → Nat) (fs : Listing) (inputs : List String)
    (h : (create_gitignore_requests scriptPresent exit_code fs inputs).result =
      Except.ok ()) :
    (create_gitignore_requests scriptPresent exit_code fs inputs).events.all
      giRequestsEvent = true := by
  match scriptPresent with
  | false => simp [create_gitignore_requests] at h
  | true =>
    by_cases he : fsExists fs ".gitignore" = true
    · match inputs with
      | [] => simp [create_gitignore_requests, he] at h
      | ans :: rest =>
        by_cases hy : (pyLower ans != "y") = true
        · simp [create_gitignore_requests, he, hy, giRequestsEvent]
        · simp [create_gitignore_requests, he, hy, standalone_run_eq,
            giRequestsEvent]
    · simp [create_gitignore_requests, he, standalone_run_eq, giRequestsEvent]

theorem clean_events_all_rm (fs : Listing) :
    (clean_git_artifacts fs).2.all rmEvent = true := by
  rw [List.all_eq_true]
  intro x hx
  unfold clean_git_artifacts at hx
  cases hb : fsIsDir fs ".git" with
  | true =>
    simp only [hb, if_true] at hx
    rcases List.mem_append.1 hx with h1 | h2
    · simp at h1
      subst h1
      rfl
    · rcases List.mem_map.1 h2 with ⟨e, _, rfl⟩
      rfl
  | false =>
    simp only [hb, Bool.false_eq_true, if_false, List.nil_append] at hx
    rcases List.mem_map.1 hx with ⟨e, _, rfl⟩
    rfl

theorem nameLoop_events (g : String → String → Nat) (u : String)
    (inputs : List String) : (nameLoop g u inputs).2.all loopEvent = true :=
  nameLoop_events_aux g u inputs.length inputs le_rfl

theorem httpx_done_events (env : Env) (fs0 : Listing) (inputs : List String)
    (h : (httpx_main env fs0 inputs).outcome = Outcome.done) :
    ∃ (username repo_name : String) (nameEvs cleanEvs giEvs readmeEvs : List Event),
      nameEvs.all loopEvent = true ∧
      cleanEvs.all rmEvent = true ∧
      giEvs.all giHttpxEvent = true ∧
      readmeEvs.all readmeEvent = true ∧
      (httpx_main env fs0 inputs).events =
        [Event.inputReq usernamePrompt] ++ nameEvs ++
          [Event.inputReq descPrompt] ++ cleanEvs ++ [Event.httpPost] ++
          giEvs ++ readmeEvs ++
          [Event.proc ["git", "init"], Event.proc ["git", "checkout", "-b", "main"],
            Event.proc ["git", "add", "."],
            Event.proc ["git", "commit", "-m", "Initial commit"],
            Event.proc ["git", "remote", "add", "origin", remote_url username repo_name],
            Event.proc ["git", "push", "-u", "origin", "main"]] := by
  match inputs with
  | [] => simp [httpx_main] at h
  | username :: r1 =>
    by_cases htok : pyFalsyStr env.token = true
    · simp [httpx_main, htok] at h
    · rcases hnl : nameLoop env.getStatus username r1 with ⟨res, nevs⟩
      have hnevs : nevs.all loopEvent = true := by
        have := nameLoop_events env.getStatus username r1
        rw [hnl] at this
        exact this
      cases res with
      | eof => simp [httpx_main, htok, hnl] at h
      | exited1 => simp [httpx_main, htok, hnl] at h
      | ok repo_name r2 =>
        cases r2 with
        | nil => simp [httpx_main, htok, hnl] at h
        | cons repo_description r3 =>
          cases hcr : create_repo_request env.post with
          | exited k => simp [httpx_main, htok, hnl, hcr] at h
          | uncaught e => simp [httpx_main, htok, hnl, hcr] at h
          | success =>
            cases hgr : (create_gitignore_httpx env.template
                (clean_git_artifacts fs0).1 r3).result with
            | error e => simp [httpx_main, htok, hnl, hcr, hgr] at h
            | ok gu =>
              cases hsr : (setup_git_repository env.exit_code repo_name
                  repo_description (create_gitignore_httpx env.template
                    (clean_git_artifacts fs0).1 r3).fs).result with
              | error e => simp [httpx_main, htok, hnl, hcr, hgr, hsr] at h
              | ok su =>
                cases hpr : (publish_steps env.exit_code username repo_name).1 with
                | error e => simp [httpx_main, htok, hnl, hcr, hgr, hsr, hpr] at h
                | ok pu =>
                  refine ⟨username, repo_name, nevs, (clean_git_artifacts fs0).2,
                    (create_gitignore_httpx env.template
                      (clean_git_artifacts fs0).1 r3).events,
                    (write_readme repo_name repo_description
                      (create_gitignore_httpx env.template
                        (clean_git_artifacts fs0).1 r3).fs).2,
                    hnevs, clean_events_all_rm fs0,
                    gi_httpx_ok_events _ _ _ hgr,
                    write_readme_events _ _ _, ?_⟩
                  simp [httpx_main, htok, hnl, hcr, hgr, hsr, hpr,
                    setup_ok_events _ _ _ _ hsr, publish_ok_events _ _ _ hpr,
                    List.append_assoc]

theorem requests_done_events (env : Env) (fs0 : Listing) (inputs : List String)
    (h : (requests_main env fs0 inputs).outcome = Outcome.done) :
    ∃ (username repo_name : String) (nameEvs cleanEvs giEvs readmeEvs : List Event),
      nameEvs.all loopEvent = true ∧
      cleanEvs.all rmEvent = true ∧
      giEvs.all giRequestsEvent = true ∧
      readmeEvs.all readmeEvent = true ∧
      (requests_main env fs0 inputs).events =
        [Event.inputReq usernamePrompt] ++ nameEvs ++
          [Event.inputReq descPrompt] ++ cleanEvs ++ [Event.httpPost] ++
          giEvs ++ [Event.proc ["git", "init"]] ++ readmeEvs ++
          [Event.proc ["git", "checkout", "-b", "main"],
            Event.proc ["git", "add", "."],
            Event.proc ["git", "commit", "-m", "Initial commit"],
            Event.proc ["git", "remote", "add", "origin", remote_url username repo_name],
            Event.proc ["git", "push", "-u", "origin", "main"]] := by
  match inputs with
  | [] => simp [requests_main] at h
  | username :: r1 =>
    by_cases htok : pyFalsyStr env.token = true
    · simp [requests_main, htok] at h
    · rcases hnl : nameLoop env.getStatus username r1 with ⟨res, nevs⟩
      have hnevs : nevs.all loopEvent = true := by
        have := nameLoop_events env.getStatus username r1
        rw [hnl] at this
        exact this
      cases res with
      | eof => simp [requests_main, htok, hnl] at h
      | exited1 => simp [requests_main, htok, hnl] at h
      | ok repo_name r2 =>
        cases r2 with
        | nil => simp [requests_main, htok, hnl] at h
        | cons repo_description r3 =>
          cases hcr : create_repo_request env.post with
          | exited k => simp [requests_main, htok, hnl, hcr] at h
          | uncaught e => simp [requests_main, htok, hnl, hcr] at h
          | success =>
            cases hgr : (create_gitignore_requests env.scriptPresent env.exit_code
                (clean_git_artifacts fs0).1 r3).result with
            | error e => simp [requests_main, htok, hnl, hcr, hgr] at h
            | ok gu =>
              cases hinit : subprocess_run env.exit_code true ["git", "init"] with
              | error e => simp [requests_main, htok, hnl, hcr, hgr, hinit] at h
              | ok iu =>
                cases hck : subprocess_run env.exit_code true
                    ["git", "checkout", "-b", "main"] with
                | error e =>
                  simp [requests_main, htok, hnl, hcr, hgr, hinit, hck] at h
                | ok cu =>
                  cases hpr : (publish_steps env.exit_code username repo_name).1 with
                  | error e =>
                    simp [requests_main, htok, hnl, hcr, hgr, hinit, hck, hpr] at h
                  | ok pu =>
                    refine ⟨username, repo_name, nevs, (clean_git_artifacts fs0).2,
                      (create_gitignore_requests env.scriptPresent env.exit_code
                        (clean_git_artifacts fs0).1 r3).events,
                      (write_readme repo_name repo_description
                        (gitInitFs (create_gitignore_requests env.scriptPresent
                          env.exit_code (clean_git_artifacts fs0).1 r3).fs)).2,
                      hnevs, clean_events_all_rm fs0,
                      gi_requests_ok_events _ _ _ _ hgr,
                      write_readme_events _ _ _, ?_⟩
                    simp [requests_main, htok, hnl, hcr, hgr, hinit, hck, hpr,
                      publish_ok_events _ _ _ hpr, List.append_assoc]

/-- C4 counterexample: a fully successful httpx run on a tree holding a
stale `.git` directory removes the directory (index 4) before the
repository-creation POST (index 5) — the remote is created after the
cleanup, not before — and writes `README.md` (index 7) before `git init`
(index 8) — the README precedes initialization. -/
theorem C4_counterexample :
    (httpx_main envDemo fsDemo demoInputs).outcome = Outcome.done ∧
    (httpx_main envDemo fsDemo demoInputs).events.findIdx? isRmGitDirEv = some 4 ∧
    (httpx_main envDemo fsDemo demoInputs).events.findIdx? isPostEv = some 5 ∧
    (httpx_main envDemo fsDemo demoInputs).events.findIdx? isReadmeWriteEv = some 7 ∧
    (httpx_main envDemo fsDemo demoInputs).events.findIdx? isGitInitEv = some 8 :=
  ⟨rfl, rfl, rfl, rfl, rfl⟩

/-- C4 (amended): every successful end-to-end run follows the scripts'
actual order — username prompt, name loop, description prompt, cleanup of
local artifacts, then the remote-creation POST, then the gitignore step,
then (httpx) README before `git init` or (requests) `git init` before
README, then branch creation, and finally add, commit, remote attachment
and push. -/
theorem C4_workflow_order :
    (∀ (env : Env) (fs0 : Listing) (inputs : List String),
      (httpx_main env fs0 inputs).outcome = Outcome.done →
      ∃ (username repo_name : String)
        (nameEvs cleanEvs giEvs readmeEvs : List Event),
        nameEvs.all loopEvent = true ∧
        cleanEvs.all rmEvent = true ∧
        giEvs.all giHttpxEvent = true ∧
        readmeEvs.all readmeEvent = true ∧
        (httpx_main env fs0 inputs).events =
          [Event.inputReq usernamePrompt] ++ nameEvs ++
            [Event.inputReq descPrompt] ++ cleanEvs ++ [Event.httpPost] ++
            giEvs ++ readmeEvs ++
            [Event.proc ["git", "init"],
              Event.proc ["git", "checkout", "-b", "main"],
              Event.proc ["git", "add", "."],
              Event.proc ["git", "commit", "-m", "Initial commit"],
              Event.proc ["git", "remote", "add", "origin",
                remote_url username repo_name],
              Event.proc ["git", "push", "-u", "origin", "main"]]) ∧
    (∀ (env : Env) (fs0 : Listing) (inputs : List String),
      (requests_main env fs0 inputs).outcome = Outcome.done →
      ∃ (username repo_name : String)
        (nameEvs cleanEvs giEvs readmeEvs : List Event),
        nameEvs.all loopEvent = true ∧
        cleanEvs.all rmEvent = true ∧
        giEvs.all giRequestsEvent = true ∧
        readmeEvs.all readmeEvent = true ∧
        (requests_main env fs0 inputs).events =
          [Event.inputReq usernamePrompt] ++ nameEvs ++
            [Event.inputReq descPrompt] ++ cleanEvs ++ [Event.httpPost] ++
            giEvs ++ [Event.proc ["git", "init"]] ++ readmeEvs ++
            [Event.proc ["git", "checkout", "-b", "main"],
              Event.proc ["git", "add", "."],
              Event.proc ["git", "commit", "-m", "Initial commit"],
              Event.proc ["git", "remote", "add", "origin",
                remote_url username repo_name],
              Event.proc ["git", "push", "-u", "origin", "main"]]) :=
  ⟨httpx_done_events, requests_done_events⟩

/-- Witness for C4's amended order on the concrete successful run. -/
theorem C4_workflow_order_witness :
    (∃ (username repo_name : String)
      (nameEvs cleanEvs giEvs readmeEvs : List Event),
      nameEvs.all loopEvent = true ∧
      cleanEvs.all rmEvent = true ∧
      giEvs.all giHttpxEvent = true ∧
      readmeEvs.all readmeEvent = true ∧
      (httpx_main envDemo fsDemo demoInputs).events =
        [Event.inputReq usernamePrompt] ++ nameEvs ++
          [Event.inputReq descPrompt] ++ cleanEvs ++ [Event.httpPost] ++
          giEvs ++ readmeEvs ++
          [Event.proc ["git", "init"],
            Event.proc ["git", "checkout", "-b", "main"],
            Event.proc ["git", "add", "."],
            Event.proc ["git", "commit", "-m", "Initial commit"],
            Event.proc ["git", "remote", "add", "origin",
              remote_url username repo_name],
            Event.proc ["git", "push", "-u", "origin", "main"]]) ∧
    (∃ (username repo_name : String)
      (nameEvs cleanEvs giEvs readmeEvs : List Event),
      nameEvs.all loopEvent = true ∧
      cleanEvs.all rmEvent = true ∧
      giEvs.all giRequestsEvent = true ∧
      readmeEvs.all readmeEvent = true ∧
      (requests_main envDemo fsDemo demoInputs).events =
        [Event.inputReq usernamePrompt] ++ nameEvs ++
          [Event.inputReq descPrompt] ++ cleanEvs ++ [Event.httpPost] ++
          giEvs ++ [Event.proc ["git", "init"]] ++ readmeEvs ++
          [Event.proc ["git", "checkout", "-b", "main"],
            Event.proc ["git", "add", "."],
            Event.proc ["git", "commit", "-m", "Initial commit"],
            Event.proc ["git", "remote", "add", "origin",
              remote_url username repo_name],
            Event.proc ["git", "push", "-u", "origin", "main"]]) :=
  ⟨C4_workflow_order.1 envDemo fsDemo demoInputs rfl,
    C4_workflow_order.2 envDemo fsDemo demoInputs rfl⟩

end GithubRepoCreation
